import Mathlib

/-!
Shallow embedding of `src/backend/main.py` (case-law-search backend).

The program is a FastAPI app with one search endpoint.  Its effectful parts
(Redis cache, the CourtListener search and opinion APIs, and the OpenAI chat
API) are modelled by an explicit state record `St` threaded through every
function, together with an environment `Env` of oracles standing for the
opaque external services.  Python exceptions are modelled by `Except PyErr`.
Python's dynamic values are modelled by the `Json` type, and the dynamic
attribute/key operations used by the source (`dict.get`, `in`, `.strip()`,
iteration, truthiness) are modelled by total Lean functions that return
`Except PyErr` exactly where the corresponding Python operation can raise.
-/

namespace CaseLaw

/-- JSON / Python values as they appear in the program: the payloads returned
by `response.json()` and the values stored in per-result dictionaries. -/
inductive Json where
  | null
  | bool (b : Bool)
  | num (n : Int)
  | str (s : String)
  | arr (elems : List Json)
  | obj (fields : List (String × Json))

/-- Python exceptions relevant to the modelled code paths. -/
inductive PyErr where
  | attributeError
  | typeError
  | valueError
deriving DecidableEq

/-- Python truthiness (`if x:`) on the modelled values. -/
def Json.truthy : Json → Bool
  | .null => false
  | .bool b => b
  | .num n => n != 0
  | .str s => !s.isEmpty
  | .arr xs => !xs.isEmpty
  | .obj fs => !fs.isEmpty

/-- Truthiness of `case.get(k)`-style results, where `none` models Python
`None` returned for a missing key. -/
def optTruthy : Option Json → Bool
  | none => false
  | some j => j.truthy

/-- Decimal digits of a natural number (fuel-indexed helper). -/
def natDigitsAux : Nat → Nat → List Char
  | 0, _ => []
  | fuel + 1, n =>
    if n < 10 then [Nat.digitChar n]
    else natDigitsAux fuel (n / 10) ++ [Nat.digitChar (n % 10)]

/-- Decimal rendering of a natural number. -/
def natRepr (n : Nat) : String := String.mk (natDigitsAux (n + 1) n)

/-- Decimal rendering of an integer (Python `str(int)`). -/
def intRepr (n : Int) : String :=
  if n < 0 then "-" ++ natRepr n.natAbs else natRepr n.natAbs

mutual
/-- `json.dumps` of a modelled value (whitespace/escaping details are not
relied on anywhere; only that the rendering is a non-empty string and that a
dumped value re-parses to itself, see `Blob`). -/
def jsonDumps : Json → String
  | .null => "null"
  | .bool b => if b then "true" else "false"
  | .num n => intRepr n
  | .str s => "\"" ++ s ++ "\""
  | .arr xs => "[" ++ jsonDumpsList xs ++ "]"
  | .obj fs => "\x7b" ++ jsonDumpsFields fs ++ "\x7d"

/-- Comma-separated rendering of a JSON array's elements. -/
def jsonDumpsList : List Json → String
  | [] => ""
  | [x] => jsonDumps x
  | x :: xs => jsonDumps x ++ ", " ++ jsonDumpsList xs

/-- Comma-separated rendering of a JSON object's fields. -/
def jsonDumpsFields : List (String × Json) → String
  | [] => ""
  | [(k, v)] => "\"" ++ k ++ "\": " ++ jsonDumps v
  | (k, v) :: fs => "\"" ++ k ++ "\": " ++ jsonDumps v ++ ", " ++ jsonDumpsFields fs
end

/-- A value stored in Redis.  The client is created with
`decode_responses=True`, so reads return strings.  `fetch_case_law` stores
`json.dumps(data)` (modelled as `jsonDump data`, so that `json.loads` of the
stored string recovers `data`); `generate_ai_summary` stores a plain summary
string. -/
inductive Blob where
  | jsonDump (j : Json)
  | text (s : String)

/-- The string Redis returns for a stored value. -/
def Blob.asString : Blob → String
  | .jsonDump j => jsonDumps j
  | .text s => s

/-- Python truthiness of the string Redis returns (`if cached_data:`). -/
def Blob.truthy (b : Blob) : Bool := !b.asString.isEmpty

/-- `json.loads` of a cached string.  A value stored via `json.dumps`
re-parses to the original value; a plain summary string is not in general
valid JSON, modelled as a `ValueError`.  (No reachable path loads a summary
blob: the two caches use the disjoint key prefixes `case_law:` and
`ai_summary:`.) -/
def Blob.loads : Blob → Except PyErr Json
  | .jsonDump j => .ok j
  | .text _ => .error .valueError

/-- Python `str.strip()`: remove leading and trailing whitespace. -/
def stripStr (s : String) : String :=
  String.mk ((s.data.dropWhile Char.isWhitespace).reverse.dropWhile Char.isWhitespace).reverse

/-- Python `str.lower()`: lower-case every character. -/
def lowerStr (s : String) : String :=
  String.mk (s.data.map Char.toLower)

/-- Model of CPython's `hash` on strings: an unspecified but fixed
deterministic function of the string contents.  The program only relies on
`hash` being a function of the text (same text, same cache key). -/
def pyHash (s : String) : Int :=
  s.data.foldl (fun h c => (h * 1000003 + Int.ofNat c.toNat) % (2 ^ 61)) 7

/-- Python `str()` as used in f-string interpolation of the opinion id.
Reachable ids are numbers or strings; the container cases reuse the JSON
rendering (Python's `repr` quoting differs, but no claim depends on it). -/
def pyStr : Json → String
  | .null => "None"
  | .bool b => if b then "True" else "False"
  | .num n => intRepr n
  | .str s => s
  | .arr xs => jsonDumps (.arr xs)
  | .obj fs => jsonDumps (.obj fs)

/-- `x.get(k, d)` where `x` must be a dict; any other receiver (list, str,
int, None) has no `.get` attribute and raises `AttributeError`. -/
def pyGetD (j : Json) (k : String) (d : Json) : Except PyErr Json :=
  match j with
  | .obj fs => .ok ((fs.lookup k).getD d)
  | _ => .error .attributeError

/-- `x.strip()` where `x` must be a string (raises `AttributeError`
otherwise, e.g. when an upstream field holds a number or `null`). -/
def pyStrip : Json → Except PyErr String
  | .str s => .ok (stripStr s)
  | _ => .error .attributeError

/-- Python `k in x`: key membership for dicts, element membership for lists,
substring test for strings, `TypeError` otherwise. -/
def pyContains (k : String) : Json → Except PyErr Bool
  | .obj fs => .ok (fs.lookup k).isSome
  | .arr xs => .ok (xs.any (fun x => match x with | .str s => s == k | _ => false))
  | .str s => .ok (decide ((s.splitOn k).length > 1))
  | _ => .error .typeError

/-- `for case in results:` — iteration over the modelled value: a list yields
its elements, a string its characters, a dict its keys; other values are not
iterable (`TypeError`). -/
def pyIterate : Json → Except PyErr (List Json)
  | .arr xs => .ok xs
  | .str s => .ok (s.toList.map (fun c => .str (String.mk [c])))
  | .obj fs => .ok (fs.map (fun p => .str p.1))
  | _ => .error .typeError

/-- Mutable world threaded through the program: the Redis connection state
(`redisUp` models whether `redis_client` is non-`None` after startup), the
cache contents (key, stored value, absolute expiry time), the current time,
and append-only logs of the requests issued to each external service (the
observables for "how many network calls were made, and to which URL"). -/
structure St where
  redisUp : Bool
  store : List (String × Blob × Nat)
  now : Nat
  searchReqs : List String
  opinionReqs : List String
  llmReqs : List String

/-- Oracles for the opaque external services: the CourtListener search API,
the CourtListener opinion-detail API (both URL-indexed; `.error` models a
`requests` failure such as a network error or non-2xx status), and the OpenAI
chat API (indexed by how many LLM calls were made before, so that distinct
attempts may answer differently; `.error` models any exception inside the
OpenAI `try` block, including a `None` message content). -/
structure Env where
  openaiKey : Bool
  searchApi : String → Except Unit Json
  opinionApi : String → Except Unit Json
  llm : Nat → String → Except Unit String

/-- `redis_client.get(key)`: the stored value if present and not expired. -/
def redisGet (st : St) (key : String) : Option Blob :=
  match st.store.find? (fun e => e.1 == key) with
  | some e => if st.now < e.2.2 then some e.2.1 else none
  | none => none

/-- `redis_client.setex(key, ttl, v)`: store `v` under `key`, expiring
`ttl` seconds from now. -/
def redisSetex (st : St) (key : String) (ttl : Nat) (v : Blob) : St :=
  { st with store := (key, v, st.now + ttl) :: st.store.filter (fun e => e.1 != key) }

/-- The search URL built at line 67 of `main.py`. -/
def searchUrl (query : String) : String :=
  "https://www.courtlistener.com/api/rest/v4/search/?q=" ++ query

/-- The opinion-detail URL built at line 119 of `main.py`. -/
def opinionUrl (oid : Json) : String :=
  "https://www.courtlistener.com/api/rest/v4/opinions/" ++ pyStr oid ++ "/"

/-- The cache key used by `fetch_case_law` (line 56). -/
def caseLawKey (query : String) : String := "case_law:" ++ query

/-- The cache key used by `generate_ai_summary` (line 141): derived from the
source text alone. -/
def aiSummaryKey (text : String) : String :=
  "ai_summary:" ++ intRepr (pyHash text)

/-- `fetch_case_law(query)` (lines 54-83): look the raw query up in the Redis
cache; on a hit, return the parsed cached JSON; on a miss, call the search
API, cache a successful response for 600 seconds, and return it; on a
`requests` failure, return the error dictionary
`{"error": "Failed to fetch case law data"}`. -/
def fetch_case_law (env : Env) (query : String) (st : St) : Except PyErr Json × St :=
  let cache_key := caseLawKey query
  let hit : Option Blob :=
    if st.redisUp then
      match redisGet st cache_key with
      | some b => if b.truthy then some b else none
      | none => none
    else none
  match hit with
  | some b => (b.loads, st)
  | none =>
    let url := searchUrl query
    let st := { st with searchReqs := st.searchReqs ++ [url] }
    match env.searchApi url with
    | .ok data =>
      let st := if st.redisUp then redisSetex st cache_key 600 (.jsonDump data) else st
      (.ok data, st)
    | .error _ =>
      (.ok (.obj [("error", .str "Failed to fetch case law data")]), st)

/-- Opinion-identifier resolution, lines 99-112 of `generate_ai_summary`:
start from `case.get("id")`; if that is falsy and the case has an `opinions`
key holding a non-empty list, replace it by `opinions[0].get("id")` (an
`AttributeError` if `opinions[0]` is not a dict); if still falsy, fall back
to a truthy `cluster_id`.  The result is `some` the resolved truthy id, or
`none` when no identifier resolved. -/
def resolveOpinionId (fields : List (String × Json)) : Except PyErr (Option Json) :=
  let oid0 := fields.lookup "id"
  let step1 : Except PyErr (Option Json) :=
    if !optTruthy oid0 then
      match fields.lookup "opinions" with
      | some (.arr (first :: _)) =>
        match first with
        | .obj ofs => .ok (ofs.lookup "id")
        | _ => .error .attributeError
      | some _ => .ok oid0
      | none => .ok oid0
    else .ok oid0
  match step1 with
  | .error e => .error e
  | .ok oid1 =>
    let oid2 :=
      if !optTruthy oid1 then
        match fields.lookup "cluster_id" with
        | some cid => if cid.truthy then some cid else oid1
        | none => oid1
      else oid1
    match oid2 with
    | some j => if j.truthy then .ok (some j) else .ok none
    | none => .ok none

/-- The fixed system instruction of the OpenAI request (line 156). -/
def llmSystemMessage : String :=
  "You are a legal AI assistant that summarizes case law."

/-- The user message of the OpenAI request (line 157), embedding the case
text. -/
def llmUserMessage (text : String) : String :=
  "Summarize this legal case:\n\n" ++ text

/-- The cache-miss branch of `generate_ai_summary` (lines 150-174): one
OpenAI chat request; an empty stripped response yields the unavailable
sentinel with no retry; a non-empty one is cached for 86400 seconds under
`cache_key` and returned; any exception in the `try` block yields the
API-error sentinel. -/
def llmStep (env : Env) (case_summary cache_key : String) (st : St) :
    Except PyErr String × St :=
  let prompt := llmUserMessage case_summary
  let idx := st.llmReqs.length
  let st := { st with llmReqs := st.llmReqs ++ [prompt] }
  match env.llm idx prompt with
  | .error _ => (.ok "AI Analysis unavailable due to an API error.", st)
  | .ok content =>
    if (stripStr content).isEmpty then (.ok "AI Summary Not Available.", st)
    else
      (.ok (stripStr content), redisSetex st cache_key 86400 (.text (stripStr content)))

/-- Lines 141-174 of `generate_ai_summary`, entered with the non-empty
stripped opinion text `case_summary`: compute the content-hash cache key and
consult the summary cache.  The `redis_client.get` at line 142 is not guarded
by `if redis_client:`, so it raises `AttributeError` when the Redis
connection failed at startup (`redisUp = false`).  A truthy cached value is
returned as the summary with no LLM call; otherwise `llmStep` runs. -/
def summarizeText (env : Env) (case_summary : String) (st : St) :
    Except PyErr String × St :=
  let cache_key := aiSummaryKey case_summary
  if !st.redisUp then
    (.error .attributeError, st)
  else
    match redisGet st cache_key with
    | some b =>
      if b.truthy then (.ok b.asString, st)
      else llmStep env case_summary cache_key st
    | none => llmStep env case_summary cache_key st

/-- Lines 118-139 of `generate_ai_summary`, entered with a resolved opinion
id: one GET to the opinion-detail endpoint; a `requests` failure degrades to
a sentinel; `opinion_data.get(...)` and `.strip()` at line 127 sit inside a
`try` that only catches `requests` errors, so an `AttributeError` there
propagates; empty `plain_text` yields a sentinel; otherwise the text becomes
the summarization source. -/
def opinionPhase (env : Env) (oid : Json) (st : St) : Except PyErr String × St :=
  let api_url := opinionUrl oid
  let st := { st with opinionReqs := st.opinionReqs ++ [api_url] }
  match env.opinionApi api_url with
  | .error _ =>
    (.ok "AI Summary Not Available (Failed to fetch full case text).", st)
  | .ok opinion_data =>
    match pyGetD opinion_data "plain_text" (.str "") with
    | .error e => (.error e, st)
    | .ok ptField =>
      match pyStrip ptField with
      | .error e => (.error e, st)
      | .ok case_summary =>
        if case_summary.isEmpty then
          (.ok "AI Summary Not Available (No case text found).", st)
        else if (stripStr case_summary).isEmpty then
          (.ok "AI Summary Not Available.", st)
        else
          summarizeText env case_summary st

/-- `generate_ai_summary(case)` (lines 86-174).  Notable source behaviour
reproduced here: the `summary` field read at line 97 is stripped (possibly
raising) and then discarded — whenever an opinion id resolves, the function
fetches the full opinion text and uses only its `plain_text` as the
summarization source; when no id resolves it answers a sentinel without any
network call. -/
def generate_ai_summary (env : Env) (case : Json) (st : St) : Except PyErr String × St :=
  if !env.openaiKey then
    (.ok "AI Analysis not available (missing API key).", st)
  else
    match case with
    | .obj fields =>
      match pyStrip ((fields.lookup "summary").getD (.str "")) with
      | .error e => (.error e, st)
      | .ok _caseSummary0 =>
        match resolveOpinionId fields with
        | .error e => (.error e, st)
        | .ok none => (.ok "AI Summary Not Available (No opinion ID).", st)
        | .ok (some oid) => opinionPhase env oid st
    | _ => (.ok "AI Summary Not Available (Invalid Case Data).", st)

/-- One formatted entry of the response: the dictionary literal of lines
192-196, as an ordered key/value list. -/
abbrev Entry := List (String × Json)

/-- The body of the per-case `try` block (lines 191-196): read `citation`
(raising `AttributeError` when the case is not a dict), then build the
three-field dictionary, whose `AI Summary` value is `generate_ai_summary`.
-/
def formatCase (env : Env) (case : Json) (st : St) : Except PyErr Entry × St :=
  match pyGetD case "citation" (.arr []) with
  | .error e => (.error e, st)
  | .ok citation =>
    match pyGetD case "caseName" (.str "Unknown Case") with
    | .error e => (.error e, st)
    | .ok caseName =>
      let citVal : Json :=
        match citation with
        | .arr (c :: _) => c
        | _ => .str "No Citation Available"
      match generate_ai_summary env case st with
      | (.error e, st) => (.error e, st)
      | (.ok summ, st) =>
        (.ok [("Case Name", caseName), ("Citation", citVal), ("AI Summary", .str summ)], st)

/-- The formatting loop of lines 188-199: each case that formats without an
exception contributes an entry; a case whose formatting raises is logged and
silently skipped. -/
def processCases (env : Env) : List Json → St → List Entry × St
  | [], st => ([], st)
  | c :: cs, st =>
    match formatCase env c st with
    | (.ok entry, st) =>
      let (rest, st) := processCases env cs st
      (entry :: rest, st)
    | (.error _, st) => processCases env cs st

/-- The number of cases the loop of lines 188-199 drops because their
formatting raised an exception. -/
def countFailures (env : Env) : List Json → St → Nat
  | [], _ => 0
  | c :: cs, st =>
    match formatCase env c st with
    | (.ok _, st) => countFailures env cs st
    | (.error _, st) => 1 + countFailures env cs st

/-- A JSON HTTP response of the endpoint: status code plus the `message` and
`results` fields of its body. -/
structure Response where
  status : Nat
  message : String
  results : List Entry

/-- `GET /search` handler `search_case_law` (lines 177-202): fetch (possibly
cached) raw search data; if it carries an `error` key, answer 500 with an
empty result list; otherwise format each entry of its `results` list
(silently dropping cases that raise) and answer 200 with
`"<N> case(s) found"` where `N` counts the formatted entries.  An escaping
`.error` models an exception propagating out of the handler. -/
def search_case_law (env : Env) (query : String) (st : St) : Except PyErr Response × St :=
  match fetch_case_law env query st with
  | (.error e, st) => (.error e, st)
  | (.ok raw_data, st) =>
    match pyContains "error" raw_data with
    | .error e => (.error e, st)
    | .ok true =>
      (.ok { status := 500, message := "Failed to fetch case law", results := [] }, st)
    | .ok false =>
      match pyGetD raw_data "results" (.arr []) with
      | .error e => (.error e, st)
      | .ok results =>
        match pyIterate results with
        | .error e => (.error e, st)
        | .ok cases =>
          let (entries, st) := processCases env cases st
          (.ok { status := 200,
                 message := natRepr entries.length ++ " case(s) found",
                 results := entries }, st)

/-- The handler's signature declares only `request` and `query`; under
FastAPI, any other query parameter of the request (such as `court`) is not
passed to the handler and cannot influence it.  Supplying extra parameters is
therefore modelled as invoking the same handler. -/
def search_case_law_with_params (env : Env) (query : String)
    (_params : List (String × String)) (st : St) : Except PyErr Response × St :=
  search_case_law env query st

/-- The rate limits attached to the `/search` route.  The source creates
`Limiter(key_func=get_remote_address)` with no default limits (lines 40-43)
and applies no `@limiter.limit(...)` decorator to `search_case_law`, so the
route carries no limit at all; the comment at line 40 notwithstanding, no
`10/minute` (or any) limit is registered.  Each limit would be a pair
(maximum number of requests, window length in seconds). -/
def searchRouteLimits : List (Nat × Nat) := []

/-- slowapi admission check: a request at time `now` from a client whose
earlier requests happened at `history` is admitted iff every registered
limit's window still has room. -/
def rateLimitAllows (limits : List (Nat × Nat)) (history : List Nat) (now : Nat) : Bool :=
  limits.all (fun l => (history.filter (fun t => t ≤ now && now < t + l.2)).length < l.1)

/-- Request dispatch for `GET /search`: if the route's rate limits admit the
request, run the handler (the pipeline); otherwise answer 429 without
invoking it.  The returned flag records whether the pipeline ran. -/
def dispatchSearch (env : Env) (query : String) (history : List Nat) (st : St) :
    (Except PyErr Response × St) × Bool :=
  if rateLimitAllows searchRouteLimits history st.now then
    (search_case_law env query st, true)
  else
    ((.ok { status := 429, message := "Rate limit exceeded", results := [] }, st), false)

/-- Drive a sequence of `/search` requests from one client at the given
times: returns the responses, the final state, and how many of the requests
reached the pipeline. -/
def runSearches (env : Env) (query : String) : List Nat → List Nat → St →
    List (Except PyErr Response) × St × Nat
  | [], _, st => ([], st, 0)
  | t :: ts, history, st =>
    let st := { st with now := t }
    let (r, invoked) := dispatchSearch env query history st
    let (rs, stFinal, n) := runSearches env query ts (history ++ [t]) r.2
    (r.1 :: rs, stFinal, (if invoked then 1 else 0) + n)

/-! ### Helper lemmas -/

theorem string_eq_empty_iff_data (s : String) : s = "" ↔ s.data = [] := by
  constructor
  · intro h; rw [h]
  · intro h; exact String.ext (by simpa using h)

theorem natDigitsAux_ne_nil (fuel n : Nat) : natDigitsAux (fuel + 1) n ≠ [] := by
  unfold natDigitsAux
  split <;> simp

theorem natRepr_ne_empty (n : Nat) : natRepr n ≠ "" := by
  rw [Ne, string_eq_empty_iff_data]
  exact natDigitsAux_ne_nil n n

theorem string_append_ne_empty (a b : String) (h : a ≠ "") : a ++ b ≠ "" := by
  rw [Ne, string_eq_empty_iff_data, String.data_append]
  intro hc
  exact h ((string_eq_empty_iff_data a).mpr (List.append_eq_nil.mp hc).1)

theorem intRepr_ne_empty (n : Int) : intRepr n ≠ "" := by
  unfold intRepr
  split
  · exact string_append_ne_empty _ _ (by decide)
  · exact natRepr_ne_empty _

theorem jsonDumps_ne_empty (j : Json) : jsonDumps j ≠ "" := by
  cases j with
  | null => simp only [jsonDumps]; decide
  | bool b => cases b <;> (simp only [jsonDumps]; decide)
  | num n => simp only [jsonDumps]; exact intRepr_ne_empty n
  | str s =>
    simp only [jsonDumps]
    exact string_append_ne_empty _ _ (string_append_ne_empty _ _ (by decide))
  | arr xs =>
    simp only [jsonDumps]
    exact string_append_ne_empty _ _ (string_append_ne_empty _ _ (by decide))
  | obj fs =>
    simp only [jsonDumps]
    exact string_append_ne_empty _ _ (string_append_ne_empty _ _ (by decide))

theorem Blob.truthy_jsonDump (j : Json) : (Blob.jsonDump j).truthy = true := by
  have h := jsonDumps_ne_empty j
  unfold Blob.truthy Blob.asString
  cases hi : (jsonDumps j).isEmpty with
  | false => rfl
  | true => exact absurd ((String.isEmpty_iff _).mp hi) h

theorem Blob.asString_ne_of_truthy (b : Blob) (h : b.truthy = true) : b.asString ≠ "" := by
  unfold Blob.truthy at h
  intro hc
  rw [hc] at h
  exact absurd h (by decide)

theorem string_ne_of_isEmpty_false (s : String) (h : s.isEmpty = false) : s ≠ "" := by
  intro hc
  rw [hc] at h
  exact absurd h (by decide)

theorem string_ne_of_not_isEmpty (c : String) (h : ¬c.isEmpty = true) : c ≠ "" := by
  intro hc
  exact h (by rw [hc]; decide)

theorem llmStep_ok_ne_empty (env : Env) (t k : String) (st st' : St) (s : String)
    (h : llmStep env t k st = (.ok s, st')) : s ≠ "" := by
  simp only [llmStep] at h
  repeat' split at h
  all_goals
    obtain ⟨h1, -⟩ := Prod.mk.injEq .. ▸ h
  all_goals
    injection h1 with h1
  all_goals
    subst h1
  · decide
  · decide
  · exact string_ne_of_not_isEmpty _ (by assumption)

theorem summarizeText_ok_ne_empty (env : Env) (t : String) (st st' : St) (s : String)
    (h : summarizeText env t st = (.ok s, st')) : s ≠ "" := by
  simp only [summarizeText] at h
  repeat' split at h
  all_goals
    first
    | exact llmStep_ok_ne_empty _ _ _ _ _ _ h
    | (obtain ⟨h1, -⟩ := Prod.mk.injEq .. ▸ h
       first
       | exact Except.noConfusion h1
       | (injection h1 with h1
          subst h1
          exact Blob.asString_ne_of_truthy _ (by assumption)))

theorem opinionPhase_ok_ne_empty (env : Env) (oid : Json) (st st' : St) (s : String)
    (h : opinionPhase env oid st = (.ok s, st')) : s ≠ "" := by
  simp only [opinionPhase] at h
  repeat' split at h
  all_goals
    first
    | exact summarizeText_ok_ne_empty _ _ _ _ _ h
    | (obtain ⟨h1, -⟩ := Prod.mk.injEq .. ▸ h
       first
       | exact Except.noConfusion h1
       | (injection h1 with h1
          subst h1
          decide))

/-- Whatever path `generate_ai_summary` returns normally on, the returned
string is non-empty: every sentinel is a non-empty literal, a cache hit is
guarded by truthiness of the cached string, and a generated summary is
guarded by a non-emptiness check. -/
theorem generate_ok_ne_empty (env : Env) (c : Json) (st st' : St) (s : String)
    (h : generate_ai_summary env c st = (.ok s, st')) : s ≠ "" := by
  simp only [generate_ai_summary] at h
  repeat' split at h
  all_goals
    first
    | exact opinionPhase_ok_ne_empty _ _ _ _ _ h
    | (obtain ⟨h1, -⟩ := Prod.mk.injEq .. ▸ h
       first
       | exact Except.noConfusion h1
       | (injection h1 with h1
          subst h1
          decide))

/-- A successfully formatted entry always has exactly the three keys
`Case Name`, `Citation`, `AI Summary`, in that order, and the AI summary is a
non-empty string. -/
theorem formatCase_ok_shape (env : Env) (c : Json) (st st' : St) (e : Entry)
    (h : formatCase env c st = (.ok e, st')) :
    ∃ a b s, e = [("Case Name", a), ("Citation", b), ("AI Summary", .str s)] ∧ s ≠ "" := by
  simp only [formatCase] at h
  repeat' split at h
  all_goals
    obtain ⟨h1, -⟩ := Prod.mk.injEq .. ▸ h
  all_goals
    first
    | exact Except.noConfusion h1
    | (injection h1 with h1
       subst h1
       exact ⟨_, _, _, rfl, generate_ok_ne_empty _ _ _ _ _ (by assumption)⟩)

/-- The formatting loop keeps an entry per case that formats successfully and
drops one per case that raises: successes plus failures exhaust the input. -/
theorem processCases_length (env : Env) (cs : List Json) (st : St) :
    (processCases env cs st).1.length + countFailures env cs st = cs.length := by
  induction cs generalizing st with
  | nil => rfl
  | cons c cs ih =>
    simp only [processCases, countFailures]
    split
    · rename_i entry st2 heq
      have := ih st2
      simp only [List.length_cons]
      omega
    · rename_i err st2 heq
      have := ih st2
      simp only [List.length_cons]
      omega

/-- Every entry the loop produces has the three-field shape with a non-empty
AI summary. -/
theorem processCases_shape (env : Env) (cs : List Json) (st : St) :
    ∀ e ∈ (processCases env cs st).1,
      ∃ a b s, e = [("Case Name", a), ("Citation", b), ("AI Summary", .str s)] ∧ s ≠ "" := by
  induction cs generalizing st with
  | nil => intro e he; exact absurd he (by simp [processCases])
  | cons c cs ih =>
    intro e he
    simp only [processCases] at he
    revert he
    split
    · rename_i entry st2 heq
      intro he
      rcases List.mem_cons.mp (by simpa using he) with h1 | h1
      · exact h1 ▸ formatCase_ok_shape env c st st2 entry heq
      · exact ih st2 e h1
    · rename_i err st2 heq
      intro he
      exact ih st2 e he

/-! ### Cache behaviour of `fetch_case_law` -/

/-- A cache miss with a successful upstream call: the search request is
issued and the response is stored for 600 seconds under the query key. -/
theorem fetch_case_law_miss (env : Env) (q : String) (data : Json) (st : St)
    (hup : st.redisUp = true)
    (hget : redisGet st (caseLawKey q) = none)
    (hok : env.searchApi (searchUrl q) = .ok data) :
    fetch_case_law env q st =
      (.ok data,
       redisSetex { st with searchReqs := st.searchReqs ++ [searchUrl q] }
         (caseLawKey q) 600 (.jsonDump data)) := by
  simp only [fetch_case_law, hup, hget, hok, if_true]

/-- A cache hit on a truthy stored value returns its parse with no network
call and no state change. -/
theorem fetch_case_law_hit (env : Env) (q : String) (b : Blob) (st : St)
    (hup : st.redisUp = true)
    (hget : redisGet st (caseLawKey q) = some b)
    (ht : b.truthy = true) :
    fetch_case_law env q st = (b.loads, st) := by
  simp only [fetch_case_law, hup, hget, ht, if_true]

/-- Reading back the key just written by `setex`, at any later time still
before the expiry, yields the stored value. -/
theorem redisGet_setex_self (st : St) (k : String) (ttl : Nat) (v : Blob) (t1 : Nat)
    (h1 : t1 < st.now + ttl) :
    redisGet { redisSetex st k ttl v with now := t1 } k = some v := by
  simp [redisGet, redisSetex, List.find?, h1]

/-- Initial state: Redis connected, empty cache, time 0, no requests issued
yet. -/
def stInit : St :=
  { redisUp := true, store := [], now := 0,
    searchReqs := [], opinionReqs := [], llmReqs := [] }

/-- C3: For every query string, calling search twice with the same query
within the short-TTL window (600 seconds, key derived from the raw query
string) returns identical results while issuing at most one upstream network
call; the second call is served from cache. -/
theorem search_cache_idempotent (env : Env) (q : String) (data : Json) (st0 : St)
    (t1 : Nat)
    (hup : st0.redisUp = true)
    (hget : redisGet st0 (caseLawKey q) = none)
    (hok : env.searchApi (searchUrl q) = .ok data)
    (hle : st0.now ≤ t1) (hlt : t1 < st0.now + 600) :
    (fetch_case_law env q st0).1 = .ok data ∧
    (fetch_case_law env q { (fetch_case_law env q st0).2 with now := t1 }).1 = .ok data ∧
    (fetch_case_law env q { (fetch_case_law env q st0).2 with now := t1 }).2.searchReqs
      = st0.searchReqs ++ [searchUrl q] := by
  have hrun1 := fetch_case_law_miss env q data st0 hup hget hok
  rw [hrun1]
  dsimp only
  have hup2 :
      ({ redisSetex { st0 with searchReqs := st0.searchReqs ++ [searchUrl q] }
           (caseLawKey q) 600 (.jsonDump data) with now := t1 } : St).redisUp = true := by
    simp [redisSetex, hup]
  have hget2 :=
    redisGet_setex_self { st0 with searchReqs := st0.searchReqs ++ [searchUrl q] }
      (caseLawKey q) 600 (.jsonDump data) t1 (by simpa using hlt)
  rw [fetch_case_law_hit env q (.jsonDump data) _ hup2 hget2 (Blob.truthy_jsonDump data)]
  exact ⟨rfl, rfl, rfl⟩

/-- Concrete environment witnessing the cache-idempotence theorem. -/
def envC3 : Env :=
  { openaiKey := true,
    searchApi := fun _ => .ok (.obj [("results", .arr [])]),
    opinionApi := fun _ => .error (),
    llm := fun _ _ => .error () }

theorem search_cache_idempotent_witness :
    (fetch_case_law envC3 "miranda" stInit).1 = .ok (.obj [("results", .arr [])]) ∧
    (fetch_case_law envC3 "miranda"
        { (fetch_case_law envC3 "miranda" stInit).2 with now := 300 }).1
      = .ok (.obj [("results", .arr [])]) ∧
    (fetch_case_law envC3 "miranda"
        { (fetch_case_law envC3 "miranda" stInit).2 with now := 300 }).2.searchReqs
      = stInit.searchReqs ++ [searchUrl "miranda"] :=
  search_cache_idempotent envC3 "miranda" (.obj [("results", .arr [])]) stInit 300
    rfl rfl rfl (by decide) (by decide)

/-! ### C1: shape of the formatted results -/

/-- The key list of a formatted entry. -/
def entryKeys (e : Entry) : List String := e.map Prod.fst

/-- Environment whose search API returns one case (with a case name and no
citation) and whose LLM key is absent. -/
def envC1 : Env :=
  { openaiKey := false,
    searchApi := fun _ =>
      .ok (.obj [("results", .arr [.obj [("caseName", .str "Miranda v. Arizona")]])]),
    opinionApi := fun _ => .error (),
    llm := fun _ _ => .error () }

/-- The response the endpoint produces in `envC1`. -/
def c1Resp : Response :=
  { status := 200,
    message := "1 case(s) found",
    results := [[("Case Name", .str "Miranda v. Arizona"),
                 ("Citation", .str "No Citation Available"),
                 ("AI Summary", .str "AI Analysis not available (missing API key).")]] }

/-- C1 counterexample: on a successful search response, each result entry
carries exactly the three keys `Case Name`, `Citation`, `AI Summary` — not
the six fields (case_name, citation, court, date_decided, summary,
full_case_url) the claim requires; in particular no `court` or
`date_decided` or `summary` or `full_case_url` key is ever produced. -/
theorem searchResults_not_six_fields :
    (search_case_law envC1 "miranda" stInit).1 = .ok c1Resp ∧
    c1Resp.results.map entryKeys = [["Case Name", "Citation", "AI Summary"]] ∧
    (c1Resp.results.map entryKeys).all
      (fun ks => !(ks.contains "court") && !(ks.contains "date_decided") &&
                 !(ks.contains "summary") && !(ks.contains "full_case_url") &&
                 ks.length == 3) = true := by
  refine ⟨rfl, rfl, by decide⟩

/-- C1 amended: every entry of every `/search` response has exactly the
three fields `Case Name`, `Citation` and `AI Summary`, the AI summary being
a non-empty string; an absent upstream `caseName` yields the sentinel
`"Unknown Case"` and an absent `citation` yields
`"No Citation Available"`. -/
theorem searchResults_three_fields_defaulted :
    (∀ (env : Env) (q : String) (st : St) (resp : Response) (stF : St),
       search_case_law env q st = (.ok resp, stF) →
       ∀ e ∈ resp.results, ∃ a b s,
         e = [("Case Name", a), ("Citation", b), ("AI Summary", .str s)] ∧ s ≠ "") ∧
    (∀ (env : Env) (fs : List (String × Json)) (st : St) (e : Entry) (stF : St),
       formatCase env (.obj fs) st = (.ok e, stF) →
       (fs.lookup "caseName" = none →
         e.head? = some ("Case Name", .str "Unknown Case")) ∧
       (fs.lookup "citation" = none →
         e.get? 1 = some ("Citation", .str "No Citation Available"))) := by
  constructor
  · intro env q st resp stF h
    simp only [search_case_law] at h
    repeat' split at h
    all_goals
      obtain ⟨h1, -⟩ := Prod.mk.injEq .. ▸ h
    all_goals
      first
      | exact Except.noConfusion h1
      | (injection h1 with h1
         subst h1
         intro e he
         dsimp only at he
         first
         | exact absurd he (List.not_mem_nil e)
         | exact processCases_shape env _ _ e he)
  · intro env fs st e stF h
    simp only [formatCase, pyGetD] at h
    repeat' split at h
    all_goals
      obtain ⟨h1, -⟩ := Prod.mk.injEq .. ▸ h
    all_goals
      first
      | exact Except.noConfusion h1
      | (injection h1 with h1
         subst h1
         constructor
         · intro hcn
           rw [hcn]
           rfl
         · intro hcit
           first
           | rfl
           | simp_all)

theorem searchResults_three_fields_defaulted_witness :
    (∃ a b s,
      ([("Case Name", Json.str "Miranda v. Arizona"),
        ("Citation", Json.str "No Citation Available"),
        ("AI Summary", Json.str "AI Analysis not available (missing API key).")] : Entry)
        = [("Case Name", a), ("Citation", b), ("AI Summary", Json.str s)] ∧ s ≠ "") ∧
    ([("Case Name", Json.str "Unknown Case"),
      ("Citation", Json.str "No Citation Available"),
      ("AI Summary", Json.str "AI Analysis not available (missing API key).")] : Entry).head?
      = some ("Case Name", Json.str "Unknown Case") :=
  ⟨searchResults_three_fields_defaulted.1 envC1 "miranda" stInit c1Resp _ rfl
     [("Case Name", Json.str "Miranda v. Arizona"),
      ("Citation", Json.str "No Citation Available"),
      ("AI Summary", Json.str "AI Analysis not available (missing API key).")]
     (List.mem_singleton.mpr rfl),
   (searchResults_three_fields_defaulted.2 envC1 [] stInit
      [("Case Name", Json.str "Unknown Case"),
       ("Citation", Json.str "No Citation Available"),
       ("AI Summary", Json.str "AI Analysis not available (missing API key).")]
      _ rfl).1 rfl⟩

/-! ### C2: no blank-query validation -/

theorem llmStep_searchReqs (env : Env) (t k : String) (st : St) :
    (llmStep env t k st).2.searchReqs = st.searchReqs := by
  simp only [llmStep]
  repeat' split
  all_goals rfl

theorem summarizeText_searchReqs (env : Env) (t : String) (st : St) :
    (summarizeText env t st).2.searchReqs = st.searchReqs := by
  simp only [summarizeText]
  repeat' split
  all_goals
    first
    | rfl
    | exact llmStep_searchReqs ..

theorem opinionPhase_searchReqs (env : Env) (oid : Json) (st : St) :
    (opinionPhase env oid st).2.searchReqs = st.searchReqs := by
  simp only [opinionPhase]
  repeat' split
  all_goals
    first
    | rfl
    | exact summarizeText_searchReqs ..

theorem generate_searchReqs (env : Env) (c : Json) (st : St) :
    (generate_ai_summary env c st).2.searchReqs = st.searchReqs := by
  simp only [generate_ai_summary]
  repeat' split
  all_goals
    first
    | rfl
    | exact opinionPhase_searchReqs ..

theorem formatCase_searchReqs (env : Env) (c : Json) (st : St) :
    (formatCase env c st).2.searchReqs = st.searchReqs := by
  simp only [formatCase]
  repeat' split
  all_goals
    first
    | rfl
    | (have hgen := generate_searchReqs env c st
       simp_all)

theorem processCases_searchReqs (env : Env) (cs : List Json) (st : St) :
    (processCases env cs st).2.searchReqs = st.searchReqs := by
  induction cs generalizing st with
  | nil => rfl
  | cons c cs ih =>
    simp only [processCases]
    split
    all_goals
      rename_i heq
      have h1 := formatCase_searchReqs env c st
      rw [heq] at h1
      rw [ih _, h1]

/-- Initial state with the Redis connection failed at startup
(`redis_client = None`). -/
def stNoRedis : St := { stInit with redisUp := false }

/-- C2 counterexample: an empty query is not rejected — the handler forwards
it upstream (one search request is issued) and returns 200, not 400. -/
theorem empty_query_reaches_upstream :
    (search_case_law envC1 "" stInit).1 = .ok c1Resp ∧
    c1Resp.status = 200 ∧
    (search_case_law envC1 "" stInit).2.searchReqs = [searchUrl ""] :=
  ⟨rfl, rfl, rfl⟩

/-- With the Redis connection down every fetch goes to the network. -/
theorem fetch_searchReqs_noRedis (env : Env) (q : String) (st : St)
    (hup : st.redisUp = false) :
    (fetch_case_law env q st).2.searchReqs = st.searchReqs ++ [searchUrl q] := by
  simp only [fetch_case_law, hup, Bool.false_eq_true, if_false]
  split <;> rfl

/-- The handler issues exactly the search requests that `fetch_case_law`
issues: the formatting phase never touches the search log. -/
theorem search_case_law_searchReqs (env : Env) (q : String) (st : St) :
    (search_case_law env q st).2.searchReqs = (fetch_case_law env q st).2.searchReqs := by
  simp only [search_case_law]
  repeat' split
  all_goals
    first
    | rfl
    | (rw [processCases_searchReqs]; simp_all)
    | simp_all

/-- C2 amended: the endpoint performs no blank-query validation.  An empty
query string is forwarded to the upstream search API exactly like any other
query (a search request is issued whenever the cache does not answer), and
no response of the handler ever carries status 400. -/
theorem blank_query_not_validated (env : Env) (st : St)
    (hup : st.redisUp = false) :
    (search_case_law env "" st).2.searchReqs = st.searchReqs ++ [searchUrl ""] ∧
    ∀ resp stF, search_case_law env "" st = (.ok resp, stF) → resp.status ≠ 400 := by
  constructor
  · rw [search_case_law_searchReqs, fetch_searchReqs_noRedis env "" st hup]
  · intro resp stF h
    simp only [search_case_law, fetch_case_law, hup, Bool.false_eq_true, if_false] at h
    repeat' split at h
    all_goals
      obtain ⟨h1, -⟩ := Prod.mk.injEq .. ▸ h
    all_goals
      first
      | exact Except.noConfusion h1
      | (injection h1 with h1
         subst h1
         dsimp only
         decide)

theorem blank_query_not_validated_witness :
    (search_case_law envC1 "" stNoRedis).2.searchReqs
      = stNoRedis.searchReqs ++ [searchUrl ""] ∧
    c1Resp.status ≠ 400 :=
  ⟨(blank_query_not_validated envC1 stNoRedis rfl).1,
   (blank_query_not_validated envC1 stNoRedis rfl).2 c1Resp _ rfl⟩

/-! ### C5: the summarizer raises in degraded (no-Redis) mode -/

/-- Environment with working upstream APIs: the search returns two cases
(one without any opinion identifier, one with `id: 1`), the opinion API
returns a non-empty `plain_text`, and the LLM returns a summary. -/
def envC10 : Env :=
  { openaiKey := true,
    searchApi := fun _ =>
      .ok (.obj [("results", .arr [.obj [], .obj [("id", .num 1)]])]),
    opinionApi := fun _ => .ok (.obj [("plain_text", .str "Some case text")]),
    llm := fun _ _ => .ok "A generated summary" }

/-- C5 evidence (code bug): with the Redis connection failed at startup
(`redis_client = None`, the state the source itself creates at line 35 "to
prevent crashes"), `generate_ai_summary` on a perfectly normal case raises
`AttributeError` at the unguarded `redis_client.get` (line 142) instead of
returning a sentinel string. -/
theorem summarizer_raises_without_redis :
    generate_ai_summary envC10 (.obj [("id", .num 1)]) stNoRedis
      = (.error .attributeError,
         { stNoRedis with opinionReqs := [opinionUrl (.num 1)] }) := rfl

/-! ### C9: no rate limit is attached to the route -/

/-- C9 evidence (code bug): eleven requests from the same client within one
minute are all admitted — none is answered 429 and every one of them reaches
the pipeline — because the route has no registered rate limit, contradicting
the source's own comment "max 10 searches per minute per user" (line 40). -/
theorem rate_limit_not_enforced :
    searchRouteLimits = [] ∧
    (runSearches envC1 "miranda" [0, 5, 10, 15, 20, 25, 30, 35, 40, 45, 50] [] stInit).2.2
      = 11 ∧
    (runSearches envC1 "miranda" [0, 5, 10, 15, 20, 25, 30, 35, 40, 45, 50] [] stInit).1.all
      (fun r => match r with | .ok resp => resp.status == 200 | .error _ => false)
      = true :=
  ⟨rfl, rfl, rfl⟩

/-! ### C10: a case whose formatting raises is silently dropped -/

/-- C10: if formatting or summarization of a case raises, the case is
silently omitted: the response still has status 200, its message counts
exactly the successfully formatted cases, successes and failures partition
the upstream result list, and any failure makes the response strictly
shorter than the upstream list. -/
theorem failing_case_dropped (env : Env) (q : String) (st : St) (data : Json)
    (resultsJ : Json) (cases : List Json) (st1 : St)
    (hfetch : fetch_case_law env q st = (.ok data, st1))
    (hnoerr : pyContains "error" data = .ok false)
    (hres : pyGetD data "results" (.arr []) = .ok resultsJ)
    (hiter : pyIterate resultsJ = .ok cases) :
    (search_case_law env q st).1 =
      .ok { status := 200,
            message := natRepr (processCases env cases st1).1.length ++ " case(s) found",
            results := (processCases env cases st1).1 } ∧
    (processCases env cases st1).1.length + countFailures env cases st1 = cases.length ∧
    (0 < countFailures env cases st1 →
      (processCases env cases st1).1.length < cases.length) := by
  refine ⟨?_, processCases_length env cases st1, ?_⟩
  · simp only [search_case_law, hfetch, hnoerr, hres, hiter]
  · intro h
    have := processCases_length env cases st1
    omega

/-- The upstream result list of `envC10`. -/
def c10cases : List Json := [.obj [], .obj [("id", .num 1)]]

/-- The state after `fetch_case_law` in the C10 witness run. -/
def c10st1 : St := { stNoRedis with searchReqs := [searchUrl "q"] }

theorem failing_case_dropped_witness :
    (search_case_law envC10 "q" stNoRedis).1 =
      .ok { status := 200,
            message := natRepr (processCases envC10 c10cases c10st1).1.length
              ++ " case(s) found",
            results := (processCases envC10 c10cases c10st1).1 } ∧
    (processCases envC10 c10cases c10st1).1.length
      + countFailures envC10 c10cases c10st1 = c10cases.length ∧
    (processCases envC10 c10cases c10st1).1.length < c10cases.length ∧
    countFailures envC10 c10cases c10st1 = 1 ∧
    (processCases envC10 c10cases c10st1).1.length = 1 :=
  have h := failing_case_dropped envC10 "q" stNoRedis
    (.obj [("results", .arr c10cases)]) (.arr c10cases) c10cases c10st1 rfl rfl rfl rfl
  ⟨h.1, h.2.1, h.2.2 (by decide), rfl, rfl⟩

/-! ### C6: no retry on an empty LLM response -/

/-- Environment whose LLM returns an empty text on the first call but a
summary on any later call. -/
def envC6 : Env :=
  { openaiKey := true,
    searchApi := fun _ => .error (),
    opinionApi := fun _ => .ok (.obj [("plain_text", .str "Some case text")]),
    llm := fun n _ => if n == 0 then .ok "" else .ok "A fine summary" }

/-- C6 counterexample: when the LLM returns an empty text the code gives up
immediately — exactly one LLM request is issued and the unavailable sentinel
is returned, even though a second attempt would have produced a summary. -/
theorem llm_empty_response_not_retried :
    generate_ai_summary envC6 (.obj [("id", .num 1)]) stInit
      = (.ok "AI Summary Not Available.",
         { stInit with opinionReqs := [opinionUrl (.num 1)],
                       llmReqs := [llmUserMessage "Some case text"] }) ∧
    envC6.llm 1 (llmUserMessage "Some case text") = .ok "A fine summary" :=
  ⟨rfl, rfl⟩

/-- C6 amended: on an empty (after stripping) LLM response the summarizer
returns the sentinel `"AI Summary Not Available."` after a single attempt —
exactly one LLM request is issued and no retry happens. -/
theorem llm_empty_returns_sentinel_no_retry (env : Env) (t k : String) (st : St)
    (e : String)
    (hllm : env.llm st.llmReqs.length (llmUserMessage t) = .ok e)
    (hempty : (stripStr e).isEmpty = true) :
    llmStep env t k st =
      (.ok "AI Summary Not Available.",
       { st with llmReqs := st.llmReqs ++ [llmUserMessage t] }) := by
  simp only [llmStep, hllm, hempty, if_true]

theorem llm_empty_returns_sentinel_no_retry_witness :
    llmStep envC6 "Some case text" (aiSummaryKey "Some case text") stInit
      = (.ok "AI Summary Not Available.",
         { stInit with llmReqs := [llmUserMessage "Some case text"] }) :=
  llm_empty_returns_sentinel_no_retry envC6 "Some case text"
    (aiSummaryKey "Some case text") stInit "" rfl rfl

/-! ### C7: opinion text is fetched regardless of the summary field -/

/-- C7 counterexample: a case with a non-empty upstream `summary` field and
a resolvable opinion id still triggers the opinion fetch — and the returned
AI summary is generated from the fetched `plain_text`, not from the upstream
summary.  (The claim says the fetch happens only when the summary is
empty.) -/
theorem opinion_fetched_despite_nonempty_summary :
    (generate_ai_summary envC10
        (.obj [("summary", .str "An existing upstream summary"), ("id", .num 7)])
        stInit).2.opinionReqs = [opinionUrl (.num 7)] ∧
    (generate_ai_summary envC10
        (.obj [("summary", .str "An existing upstream summary"), ("id", .num 7)])
        stInit).1 = .ok (stripStr "A generated summary") ∧
    stripStr "An existing upstream summary" ≠ "" :=
  ⟨rfl, rfl, by decide⟩

theorem summarizeText_opinionReqs (env : Env) (t : String) (st : St) :
    (summarizeText env t st).2.opinionReqs = st.opinionReqs := by
  simp only [summarizeText, llmStep]
  repeat' split
  all_goals rfl

theorem opinionPhase_opinionReqs (env : Env) (oid : Json) (st : St) :
    (opinionPhase env oid st).2.opinionReqs = st.opinionReqs ++ [opinionUrl oid] := by
  simp only [opinionPhase]
  repeat' split
  all_goals
    first
    | rfl
    | (rw [summarizeText_opinionReqs]; try rfl)

/-- C7 amended: whenever an opinion identifier resolves the opinion fetch is
issued — regardless of the case's `summary` field, whose stripped value `s0`
is arbitrary here; the identifier resolution order is (1) a truthy `id`
field, (2) the `id` of the first element of an embedded `opinions` list,
(3) a truthy `cluster_id`; and when nothing resolves, the function returns
the no-opinion-id sentinel with the state untouched (no network call). -/
theorem opinion_fetch_resolution :
    (∀ (env : Env) (fs : List (String × Json)) (st : St) (s0 : String) (oid : Json),
       env.openaiKey = true →
       pyStrip ((fs.lookup "summary").getD (.str "")) = .ok s0 →
       resolveOpinionId fs = .ok (some oid) →
       (generate_ai_summary env (.obj fs) st).2.opinionReqs
         = st.opinionReqs ++ [opinionUrl oid]) ∧
    (∀ (env : Env) (fs : List (String × Json)) (st : St) (s0 : String),
       env.openaiKey = true →
       pyStrip ((fs.lookup "summary").getD (.str "")) = .ok s0 →
       resolveOpinionId fs = .ok none →
       generate_ai_summary env (.obj fs) st
         = (.ok "AI Summary Not Available (No opinion ID).", st)) ∧
    (∀ (fs : List (String × Json)) (j : Json),
       fs.lookup "id" = some j → j.truthy = true →
       resolveOpinionId fs = .ok (some j)) ∧
    (∀ (fs : List (String × Json)) (ofs : List (String × Json)) (rest : List Json)
       (j : Json),
       optTruthy (fs.lookup "id") = false →
       fs.lookup "opinions" = some (.arr (.obj ofs :: rest)) →
       ofs.lookup "id" = some j → j.truthy = true →
       resolveOpinionId fs = .ok (some j)) ∧
    (∀ (fs : List (String × Json)) (j : Json),
       optTruthy (fs.lookup "id") = false →
       fs.lookup "opinions" = none →
       fs.lookup "cluster_id" = some j → j.truthy = true →
       resolveOpinionId fs = .ok (some j)) := by
  refine ⟨?_, ?_, ?_, ?_, ?_⟩
  · intro env fs st s0 oid hk hs hr
    simp only [generate_ai_summary, hk, hs, hr, Bool.not_true, Bool.false_eq_true, if_false]
    exact opinionPhase_opinionReqs env oid st
  · intro env fs st s0 hk hs hr
    simp only [generate_ai_summary, hk, hs, hr, Bool.not_true, Bool.false_eq_true, if_false]
  · intro fs j h1 h2
    simp only [resolveOpinionId, h1]
    simp only [optTruthy, h2, Bool.not_true, Bool.false_eq_true, if_false, if_true]
  · intro fs ofs rest j h1 h2 h3 h4
    simp only [resolveOpinionId, h1, Bool.not_false, if_true, h2, h3]
    simp only [optTruthy, h4, Bool.not_true, Bool.false_eq_true, if_false, if_true]
  · intro fs j h1 h2 h3 h4
    simp only [resolveOpinionId, h1, Bool.not_false, if_true, h2, h3, h4]

theorem opinion_fetch_resolution_witness :
    (generate_ai_summary envC10
        (.obj [("summary", .str "S"), ("id", .num 7)]) stInit).2.opinionReqs
      = stInit.opinionReqs ++ [opinionUrl (.num 7)] ∧
    generate_ai_summary envC10 (.obj [("caseName", .str "X")]) stInit
      = (.ok "AI Summary Not Available (No opinion ID).", stInit) ∧
    resolveOpinionId [("id", .num 7)] = .ok (some (.num 7)) ∧
    resolveOpinionId [("opinions", .arr [.obj [("id", .num 3)]])] = .ok (some (.num 3)) ∧
    resolveOpinionId [("cluster_id", .num 9)] = .ok (some (.num 9)) :=
  ⟨opinion_fetch_resolution.1 envC10 [("summary", .str "S"), ("id", .num 7)] stInit
     (stripStr "S") (.num 7) rfl rfl rfl,
   opinion_fetch_resolution.2.1 envC10 [("caseName", .str "X")] stInit
     (stripStr "") rfl rfl rfl,
   opinion_fetch_resolution.2.2.1 [("id", .num 7)] (.num 7) rfl rfl,
   opinion_fetch_resolution.2.2.2.1 [("opinions", .arr [.obj [("id", .num 3)]])]
     [("id", .num 3)] [] (.num 3) rfl rfl rfl rfl,
   opinion_fetch_resolution.2.2.2.2 [("cluster_id", .num 9)] (.num 9) rfl rfl rfl rfl⟩

/-! ### C8: no court filter exists -/

/-- Environment returning one case whose normalized court value is the given
one. -/
def envC8 (courtVal : Json) : Env :=
  { openaiKey := false,
    searchApi := fun _ =>
      .ok (.obj [("results",
        .arr [.obj [("caseName", .str "State v. Doe"), ("court", courtVal)]])]),
    opinionApi := fun _ => .error (),
    llm := fun _ _ => .error () }

/-- The single formatted entry the endpoint produces in `envC8`. -/
def c8Entry : Entry :=
  [("Case Name", .str "State v. Doe"),
   ("Citation", .str "No Citation Available"),
   ("AI Summary", .str "AI Analysis not available (missing API key).")]

/-- C8 counterexample: with a `court=Supreme Court` parameter supplied, a
case whose court is `Supreme Court of Ohio` — which does not
case-insensitively equal the filter — is still retained in the response
(1 result instead of the 0 exact matches the claim requires). -/
theorem court_filter_not_applied :
    (search_case_law_with_params (envC8 (.str "Supreme Court of Ohio")) "q"
        [("court", "Supreme Court")] stInit).1 =
      .ok { status := 200, message := "1 case(s) found", results := [c8Entry] } ∧
    lowerStr "Supreme Court of Ohio" ≠ lowerStr "Supreme Court" :=
  ⟨rfl, by decide⟩

/-- C8 amended: the handler declares no court parameter, so a supplied
`court` filter is ignored entirely: whatever the case's court value and
whatever extra query parameters the client sends, the response is the same
and retains the case — no court-based filtering is performed (the produced
entries do not even carry a court field). -/
theorem court_filter_ignored (courtVal : Json) (params : List (String × String)) :
    (search_case_law_with_params (envC8 courtVal) "q" params stInit).1 =
      .ok { status := 200, message := "1 case(s) found", results := [c8Entry] } ∧
    search_case_law_with_params (envC8 courtVal) "q" params stInit
      = search_case_law (envC8 courtVal) "q" stInit := by
  exact ⟨rfl, rfl⟩

/-! ### C4: content-addressed summary cache -/

theorem isEmpty_false_of_ne (s : String) (h : s ≠ "") : s.isEmpty = false := by
  cases hi : s.isEmpty
  · rfl
  · exact absurd ((String.isEmpty_iff s).mp hi) h

/-- A successful opinion fetch with non-empty already-stripped `plain_text`
hands the text to the summarization step. -/
theorem opinionPhase_ok_text (env : Env) (oid : Json) (st : St) (t : String)
    (hop : env.opinionApi (opinionUrl oid) = .ok (.obj [("plain_text", .str t)]))
    (htrim : stripStr t = t) (hne : t ≠ "") :
    opinionPhase env oid st =
      summarizeText env t { st with opinionReqs := st.opinionReqs ++ [opinionUrl oid] } := by
  have hie : t.isEmpty = false := isEmpty_false_of_ne t hne
  simp only [opinionPhase, hop, pyGetD, pyStrip, List.lookup, beq_self_eq_true, if_true,
    Option.getD_some, htrim, hie, Bool.false_eq_true, if_false]

/-- A summary-cache miss (with Redis up) proceeds to the LLM step. -/
theorem summarizeText_miss (env : Env) (t : String) (st : St)
    (hup : st.redisUp = true) (hmiss : redisGet st (aiSummaryKey t) = none) :
    summarizeText env t st = llmStep env t (aiSummaryKey t) st := by
  simp only [summarizeText, hup, hmiss, Bool.not_true, Bool.false_eq_true, if_false]

/-- A summary-cache hit on a truthy value answers from the cache with no LLM
call and no state change. -/
theorem summarizeText_hit (env : Env) (t : String) (st : St) (b : Blob)
    (hup : st.redisUp = true) (hget : redisGet st (aiSummaryKey t) = some b)
    (ht : b.truthy = true) :
    summarizeText env t st = (.ok b.asString, st) := by
  simp only [summarizeText, hup, hget, ht, Bool.not_true, Bool.false_eq_true, if_false,
    if_true]

/-- A successful LLM call with a non-empty already-stripped reply stores the
summary for 86400 seconds and returns it. -/
theorem llmStep_ok (env : Env) (t k : String) (st : St) (sum : String)
    (hllm : env.llm st.llmReqs.length (llmUserMessage t) = .ok sum)
    (hstrim : stripStr sum = sum) (hsne : sum ≠ "") :
    llmStep env t k st =
      (.ok sum,
       redisSetex { st with llmReqs := st.llmReqs ++ [llmUserMessage t] }
         k 86400 (.text sum)) := by
  have hse : sum.isEmpty = false := isEmpty_false_of_ne sum hsne
  simp only [llmStep, hllm, hstrim, hse, Bool.false_eq_true, if_false]

/-- C4: the summary cache key is a hash of the source text alone; two cases
(here with distinct opinion ids, standing for hits from different queries)
whose fetched opinion text is the same `t` trigger exactly one LLM call: the
first summarization stores the summary under `aiSummaryKey t` with a 86400
second (24 h) TTL, and the second, run within that window, answers the same
summary from the cache without calling the LLM again. -/
theorem summary_cache_content_addressed (env : Env) (st0 : St) (t sum : String)
    (t1 : Nat)
    (hkey : env.openaiKey = true)
    (hup : st0.redisUp = true)
    (hop1 : env.opinionApi (opinionUrl (.num 1)) = .ok (.obj [("plain_text", .str t)]))
    (hop2 : env.opinionApi (opinionUrl (.num 2)) = .ok (.obj [("plain_text", .str t)]))
    (htrim : stripStr t = t) (hne : t ≠ "")
    (hmiss : redisGet st0 (aiSummaryKey t) = none)
    (hllm : env.llm st0.llmReqs.length (llmUserMessage t) = .ok sum)
    (hstrim : stripStr sum = sum) (hsne : sum ≠ "")
    (hlt : t1 < st0.now + 86400) :
    (generate_ai_summary env (.obj [("id", .num 1)]) st0).1 = .ok sum ∧
    (generate_ai_summary env (.obj [("id", .num 1)]) st0).2.store
      = (aiSummaryKey t, .text sum, st0.now + 86400)
        :: st0.store.filter (fun e => e.1 != aiSummaryKey t) ∧
    (generate_ai_summary env (.obj [("id", .num 2)])
        { (generate_ai_summary env (.obj [("id", .num 1)]) st0).2 with now := t1 }).1
      = .ok sum ∧
    (generate_ai_summary env (.obj [("id", .num 2)])
        { (generate_ai_summary env (.obj [("id", .num 1)]) st0).2 with now := t1 }).2.llmReqs
      = st0.llmReqs ++ [llmUserMessage t] ∧
    aiSummaryKey t = "ai_summary:" ++ intRepr (pyHash t) := by
  have e1 : generate_ai_summary env (.obj [("id", .num 1)]) st0
      = opinionPhase env (.num 1) st0 := by
    simp only [generate_ai_summary, hkey]
    rfl
  have hupA : ({ st0 with opinionReqs := st0.opinionReqs ++ [opinionUrl (.num 1)] } : St).redisUp
      = true := hup
  have hmissA :
      redisGet { st0 with opinionReqs := st0.opinionReqs ++ [opinionUrl (.num 1)] }
        (aiSummaryKey t) = none := hmiss
  have hllmA :
      env.llm ({ st0 with opinionReqs := st0.opinionReqs ++ [opinionUrl (.num 1)] } : St).llmReqs.length
        (llmUserMessage t) = .ok sum := hllm
  have hc1 : generate_ai_summary env (.obj [("id", .num 1)]) st0
      = (.ok sum,
         redisSetex
           { st0 with opinionReqs := st0.opinionReqs ++ [opinionUrl (.num 1)],
                      llmReqs := st0.llmReqs ++ [llmUserMessage t] }
           (aiSummaryKey t) 86400 (.text sum)) := by
    rw [e1, opinionPhase_ok_text env (.num 1) st0 t hop1 htrim hne,
        summarizeText_miss env t _ hupA hmissA,
        llmStep_ok env t (aiSummaryKey t) _ sum hllmA hstrim hsne]
  rw [hc1]
  refine ⟨rfl, rfl, ?_⟩
  have e2 : ∀ stX : St, generate_ai_summary env (.obj [("id", .num 2)]) stX
      = opinionPhase env (.num 2) stX := by
    intro stX
    simp only [generate_ai_summary, hkey]
    rfl
  have htr : (Blob.text sum).truthy = true := by
    have hse : sum.isEmpty = false := isEmpty_false_of_ne sum hsne
    simp [Blob.truthy, Blob.asString, hse]
  have hupD :
      ({ ({ redisSetex
             { st0 with opinionReqs := st0.opinionReqs ++ [opinionUrl (.num 1)],
                        llmReqs := st0.llmReqs ++ [llmUserMessage t] }
             (aiSummaryKey t) 86400 (.text sum) with now := t1 } : St) with
         opinionReqs :=
           ({ redisSetex
               { st0 with opinionReqs := st0.opinionReqs ++ [opinionUrl (.num 1)],
                          llmReqs := st0.llmReqs ++ [llmUserMessage t] }
               (aiSummaryKey t) 86400 (.text sum) with now := t1 } : St).opinionReqs
             ++ [opinionUrl (.num 2)] } : St).redisUp = true := hup
  have hgetD :
      redisGet
        { ({ redisSetex
              { st0 with opinionReqs := st0.opinionReqs ++ [opinionUrl (.num 1)],
                         llmReqs := st0.llmReqs ++ [llmUserMessage t] }
              (aiSummaryKey t) 86400 (.text sum) with now := t1 } : St) with
          opinionReqs :=
            ({ redisSetex
                { st0 with opinionReqs := st0.opinionReqs ++ [opinionUrl (.num 1)],
                           llmReqs := st0.llmReqs ++ [llmUserMessage t] }
                (aiSummaryKey t) 86400 (.text sum) with now := t1 } : St).opinionReqs
              ++ [opinionUrl (.num 2)] }
        (aiSummaryKey t) = some (.text sum) :=
    redisGet_setex_self
      { st0 with opinionReqs := st0.opinionReqs ++ [opinionUrl (.num 1)],
                 llmReqs := st0.llmReqs ++ [llmUserMessage t] }
      (aiSummaryKey t) 86400 (.text sum) t1 hlt
  have hc2 :
      generate_ai_summary env (.obj [("id", .num 2)])
        { redisSetex
            { st0 with opinionReqs := st0.opinionReqs ++ [opinionUrl (.num 1)],
                       llmReqs := st0.llmReqs ++ [llmUserMessage t] }
            (aiSummaryKey t) 86400 (.text sum) with now := t1 }
      = (.ok sum,
         { ({ redisSetex
               { st0 with opinionReqs := st0.opinionReqs ++ [opinionUrl (.num 1)],
                          llmReqs := st0.llmReqs ++ [llmUserMessage t] }
               (aiSummaryKey t) 86400 (.text sum) with now := t1 } : St) with
           opinionReqs :=
             ({ redisSetex
                 { st0 with opinionReqs := st0.opinionReqs ++ [opinionUrl (.num 1)],
                            llmReqs := st0.llmReqs ++ [llmUserMessage t] }
                 (aiSummaryKey t) 86400 (.text sum) with now := t1 } : St).opinionReqs
               ++ [opinionUrl (.num 2)] }) := by
    rw [e2, opinionPhase_ok_text env (.num 2) _ t hop2 htrim hne,
        summarizeText_hit env t _ (.text sum) hupD hgetD htr]
    rfl
  refine ⟨?_, ?_, rfl⟩
  · show (generate_ai_summary env (.obj [("id", .num 2)])
        { redisSetex
            { st0 with opinionReqs := st0.opinionReqs ++ [opinionUrl (.num 1)],
                       llmReqs := st0.llmReqs ++ [llmUserMessage t] }
            (aiSummaryKey t) 86400 (.text sum) with now := t1 }).1 = .ok sum
    rw [hc2]
  · show (generate_ai_summary env (.obj [("id", .num 2)])
        { redisSetex
            { st0 with opinionReqs := st0.opinionReqs ++ [opinionUrl (.num 1)],
                       llmReqs := st0.llmReqs ++ [llmUserMessage t] }
            (aiSummaryKey t) 86400 (.text sum) with now := t1 }).2.llmReqs
      = st0.llmReqs ++ [llmUserMessage t]
    rw [hc2]
    rfl

/-- Concrete environment witnessing the content-addressed summary cache. -/
def envC4 : Env :=
  { openaiKey := true,
    searchApi := fun _ => .error (),
    opinionApi := fun _ => .ok (.obj [("plain_text", .str "Some case text")]),
    llm := fun _ _ => .ok "A generated summary" }

theorem summary_cache_content_addressed_witness :
    (generate_ai_summary envC4 (.obj [("id", .num 1)]) stInit).1
      = .ok "A generated summary" ∧
    (generate_ai_summary envC4 (.obj [("id", .num 1)]) stInit).2.store
      = (aiSummaryKey "Some case text", .text "A generated summary",
         stInit.now + 86400)
        :: stInit.store.filter (fun e => e.1 != aiSummaryKey "Some case text") ∧
    (generate_ai_summary envC4 (.obj [("id", .num 2)])
        { (generate_ai_summary envC4 (.obj [("id", .num 1)]) stInit).2 with now := 3600 }).1
      = .ok "A generated summary" ∧
    (generate_ai_summary envC4 (.obj [("id", .num 2)])
        { (generate_ai_summary envC4 (.obj [("id", .num 1)]) stInit).2 with now := 3600 }).2.llmReqs
      = stInit.llmReqs ++ [llmUserMessage "Some case text"] ∧
    aiSummaryKey "Some case text"
      = "ai_summary:" ++ intRepr (pyHash "Some case text") :=
  summary_cache_content_addressed envC4 stInit "Some case text" "A generated summary"
    3600 rfl rfl rfl rfl rfl (by decide) rfl rfl rfl (by decide) (by decide)

end CaseLaw

